import Mathlib

/-!
Verification of the schema-to-storage compiler in `packages/db/src/internal.ts`:
field-type to column-type mapping, default-value encoding, DDL generation
(`getCreateTableQuery`, `getTableIndexQueries`), the table-descriptor builder
(`collectionToTable` / `columnMapper`), the write guard
(`createLocalDatabaseClient` / `checkIfModificationIsAllowed`), and the
schema installer / seeder (`setupDbTables`).

Modelling conventions:
* JavaScript objects iterated with `Object.entries` are modelled as ordered
  association lists (insertion order preserved).
* JavaScript exceptions and the `process.exit(0)` abort in the json default
  branch are modelled with `Except`.
* Strings are modelled as Lean `String`; the drizzle SQLite dialect helpers
  `escapeName` / `escapeString` are modelled after their library definitions
  (wrap in double quotes; single-quote doubling).
-/

namespace AstroDb

/-- Models a JavaScript value supplied as a `json()` field default, as seen by
`JSON.stringify`: either serialization succeeds and yields this JSON text, or
`JSON.stringify` throws (cyclic structure, BigInt, ...). -/
inductive JsonVal
  | serializable (text : String)
  | unserializable
deriving DecidableEq, Repr

/-- The five field type tags of `FieldType` in the schema types. -/
inductive FieldType
  | text
  | number
  | boolean
  | date
  | json
deriving DecidableEq, BEq, Repr

/-- Modelled from the spec: the `DBField` union of `types.js` (the file itself
is not under `src/`). §3 of the spec: five variants Text, Number, Boolean,
Date, Json, each with `optional`, `unique`, an optional typed `default`, and
`primaryKey` only meaningful on Text/Number. A Date default is a string
(either the token "now" or a date string); a Number default is modelled as an
integer. -/
inductive DBField
  | text (optional unique : Bool) (default : Option String) (primaryKey : Bool)
  | number (optional unique : Bool) (default : Option Int) (primaryKey : Bool)
  | boolean (optional unique : Bool) (default : Option Bool)
  | date (optional unique : Bool) (default : Option String)
  | json (optional unique : Bool) (default : Option JsonVal)
deriving DecidableEq, Repr

def DBField.type : DBField → FieldType
  | .text _ _ _ _ => .text
  | .number _ _ _ _ => .number
  | .boolean _ _ _ => .boolean
  | .date _ _ _ => .date
  | .json _ _ _ => .json

def DBField.optional : DBField → Bool
  | .text o _ _ _ => o
  | .number o _ _ _ => o
  | .boolean o _ _ => o
  | .date o _ _ => o
  | .json o _ _ => o

def DBField.unique : DBField → Bool
  | .text _ u _ _ => u
  | .number _ u _ _ => u
  | .boolean _ u _ => u
  | .date _ u _ => u
  | .json _ u _ => u

/-- `field.default !== undefined`. -/
def DBField.defaultDefined : DBField → Bool
  | .text _ _ d _ => d.isSome
  | .number _ _ d _ => d.isSome
  | .boolean _ _ d => d.isSome
  | .date _ _ d => d.isSome
  | .json _ _ d => d.isSome

/-- The `on` attribute of an index: one column name or an ordered list
(`indexProps.on` is either a string or an array). -/
inductive IndexOn
  | one (column : String)
  | many (columns : List String)
deriving DecidableEq, Repr

/-- `Array.isArray(indexProps.on) ? indexProps.on : [indexProps.on]`. -/
def normalizeOn : IndexOn → List String
  | .one c => [c]
  | .many cs => cs

/-- An index declaration. The source attribute is named `on`; that word is a
Lean keyword, so the field is called `onColumns` here. -/
structure DBIndex where
  onColumns : IndexOn
  unique : Bool
deriving DecidableEq, Repr

/-- A collection: ordered fields, ordered indexes (`collection.indexes ?? {}`
modelled by defaulting to the empty list), and the `writable` flag. -/
structure DBCollection where
  fields : List (String × DBField)
  indexes : List (String × DBIndex)
  writable : Bool
deriving DecidableEq, Repr

/-- Drizzle's SQLite dialect `escapeName`: wrap the identifier in double
quotes. -/
def escapeName (name : String) : String := "\"" ++ name ++ "\""

/-- Drizzle's SQLite dialect `escapeString`: double every single quote and
wrap in single quotes. -/
def escapeString (str : String) : String :=
  "'" ++ String.join (str.toList.map (fun ch => if ch.toNat == 39 then "''" else String.singleton ch)) ++ "'"

/-- `leadsWith needle hay`: `needle` is an initial segment of `hay`. -/
def leadsWith : List Char → List Char → Bool
  | [], _ => true
  | _ :: _, [] => false
  | a :: as, b :: bs => a == b && leadsWith as bs

/-- `infixIn needle hay`: `needle` occurs contiguously inside `hay`. -/
def infixIn : List Char → List Char → Bool
  | needle, [] => needle.isEmpty
  | needle, h :: t => leadsWith needle (h :: t) || infixIn needle t

/-- Substring test used to state facts about generated SQL text. -/
def strContains (hay needle : String) : Bool :=
  infixIn needle.toList hay.toList

/-- `hasPrimaryKey`: `'primaryKey' in field && !!field.primaryKey`. Only the
Text and Number variants carry the `primaryKey` attribute. -/
def hasPrimaryKey : DBField → Bool
  | .text _ _ _ pk => pk
  | .number _ _ _ pk => pk
  | _ => false

/-- `hasDefault`: an explicit default is set, or the field is a Number primary
key (auto-increment sentinel). -/
def hasDefault (field : DBField) : Bool :=
  if field.defaultDefined then true
  else if hasPrimaryKey field && field.type == FieldType.number then true
  else false

/-- `schemaTypeToSqlType`: date/text/json map to `text`, number/boolean to
`integer` (the lowercase strings returned by the source). -/
def schemaTypeToSqlType : FieldType → String
  | .date => "text"
  | .text => "text"
  | .json => "text"
  | .number => "integer"
  | .boolean => "integer"

/-- The abortive outcome of the json branch of `getDefaultValueSql`: the
source logs a message naming the column and calls `process.exit(0)`, so no
caller code runs afterwards. -/
inductive AbortMsg
  | invalidJsonDefault (columnName : String)
deriving DecidableEq, Repr

/-- `getDefaultValueSql`. The source is only invoked under `hasDefault`, so
the `none` branches of the text/date/json cases are unreachable; they are
completed with the literal the JavaScript expression would produce on an
empty/undefined input where that is meaningful. The number case models the
JavaScript falsy test `column.default || 'AUTOINCREMENT'`: an explicit
default of `0` also yields the `AUTOINCREMENT` marker. -/
def getDefaultValueSql (columnName : String) (column : DBField) : Except AbortMsg String :=
  match column with
  | .boolean _ _ d => .ok (if d.getD false then "TRUE" else "FALSE")
  | .number _ _ d _ =>
    .ok (match d with
      | some v => if v = 0 then "AUTOINCREMENT" else toString v
      | none => "AUTOINCREMENT")
  | .text _ _ d _ => .ok (escapeString (d.getD ""))
  | .date _ _ d =>
    .ok (if d.getD "" = "now" then "CURRENT_TIMESTAMP" else escapeString (d.getD ""))
  | .json _ _ d =>
    match d with
    | some (JsonVal.serializable s) => .ok (escapeString s)
    | some JsonVal.unserializable => .error (AbortMsg.invalidJsonDefault columnName)
    | none => .ok (escapeString "undefined")

/-- `getModifiers`: `PRIMARY KEY` is exclusive; otherwise `NOT NULL` when not
optional, `UNIQUE` when unique, and `DEFAULT <literal>` when `hasDefault`. -/
def getModifiers (fieldName : String) (field : DBField) : Except AbortMsg String :=
  if hasPrimaryKey field then .ok " PRIMARY KEY"
  else
    let modifiers :=
      (if !field.optional then " NOT NULL" else "") ++ (if field.unique then " UNIQUE" else "")
    if hasDefault field then
      match getDefaultValueSql fieldName field with
      | .ok d => .ok (modifiers ++ " DEFAULT " ++ d)
      | .error e => .error e
    else .ok modifiers

/-- The per-field column clause of `getCreateTableQuery`:
`escapeName(columnName) + " " + schemaTypeToSqlType(column.type) + modifiers`. -/
def columnClause (columnName : String) (column : DBField) : Except AbortMsg String :=
  match getModifiers columnName column with
  | .ok mods => .ok (escapeName columnName ++ " " ++ schemaTypeToSqlType column.type ++ mods)
  | .error e => .error e

/-- Error-propagating map over a list, mirroring a loop whose body may abort. -/
def mapMExcept {α β ε : Type} (f : α → Except ε β) : List α → Except ε (List β)
  | [] => .ok []
  | a :: as =>
    match f a with
    | .error e => .error e
    | .ok b =>
      match mapMExcept f as with
      | .error e => .error e
      | .ok bs => .ok (b :: bs)

/-- `getCreateTableQuery`: a synthesized, unescaped `_id INTEGER PRIMARY KEY`
column first when no field declares a primary key, then one clause per
declared field, joined with `, ` inside `CREATE TABLE <escaped name> (...)`. -/
def getCreateTableQuery (collectionName : String) (collection : DBCollection) : Except AbortMsg String :=
  let colHasPrimaryKey := collection.fields.any (fun p => hasPrimaryKey p.2)
  match mapMExcept (fun p => columnClause p.1 p.2) collection.fields with
  | .ok cols =>
    let colQueries := (if colHasPrimaryKey then [] else ["_id INTEGER PRIMARY KEY"]) ++ cols
    .ok ("CREATE TABLE " ++ escapeName collectionName ++ " (" ++ String.intercalate ", " colQueries ++ ")")
  | .error e => .error e

/-- `getTableIndexQueries`: one `CREATE [UNIQUE ]INDEX` statement per declared
index, all names escaped, with no validation of the referenced columns. -/
def getTableIndexQueries (collectionName : String) (collection : DBCollection) : List String :=
  collection.indexes.map (fun p =>
    let onColNames := normalizeOn p.2.onColumns
    let onCols := onColNames.map escapeName
    let uniquePart := if p.2.unique then "UNIQUE " else ""
    "CREATE " ++ uniquePart ++ "INDEX " ++ escapeName p.1 ++ " ON " ++ escapeName collectionName
      ++ " (" ++ String.intercalate ", " onCols ++ ")")

example :
    getCreateTableQuery "posts"
      { fields := [("title", DBField.text false false none false),
                   ("views", DBField.number true false (some 0) false)],
        indexes := [], writable := true }
      = .ok "CREATE TABLE \"posts\" (_id INTEGER PRIMARY KEY, \"title\" text NOT NULL, \"views\" integer DEFAULT AUTOINCREMENT)" := by
  rfl

example : escapeString "it's" = "'it''s'" := by rfl

example : strContains "CREATE TABLE x" "TABLE" = true := by rfl

/-! ## Table descriptor builder (`collectionToTable` / `columnMapper`) -/

/-- The drizzle column constructor selected by `columnMapper`:
`text(...)`, `integer(...)`, `integer(..., { mode: 'boolean' })`, the custom
`jsonType`, or the custom `dateType` (the last two carry serialize-on-write /
parse-on-read hooks). -/
inductive ColKind
  | textCol
  | integerCol
  | integerBooleanCol
  | jsonCustomCol
  | dateCustomCol
deriving DecidableEq, Repr

/-- The value handed to a drizzle column builder's `.default(...)`:
a string, an integer, a boolean, the raw JavaScript value of a json field,
the SQL fragment `` sql`CURRENT_TIMESTAMP` ``, or the Date produced by
`z.coerce.date().parse(s)` in native mode (modelled by its source string). -/
inductive ColDefault
  | str (s : String)
  | int (n : Int)
  | bool (b : Bool)
  | jsonVal (v : JsonVal)
  | sqlCurrentTimestamp
  | dateParsed (iso : String)
deriving DecidableEq, Repr

/-- The state accumulated by a chain of drizzle column-builder calls as
performed in `columnMapper` / `collectionToTable`. -/
structure Column where
  name : String
  kind : ColKind
  defaultVal : Option ColDefault := none
  primaryKey : Bool := false
  autoIncrement : Bool := false
  notNull : Bool := false
  unique : Bool := false
deriving DecidableEq, Repr

/-- `columnMapper(fieldName, field, isJsonSerializable)`: pick the column
constructor by field type, apply `.default(...)` when the field declares one,
apply `.primaryKey(...)` for Text/Number, then `.notNull()` when not optional
and `.unique()` when unique. Date fields branch on `isJsonSerializable`. -/
def columnMapper (fieldName : String) (field : DBField) (isJsonSerializable : Bool) : Column :=
  let c : Column :=
    match field with
    | .text _ _ d pk =>
      let c0 : Column := { name := fieldName, kind := ColKind.textCol }
      let c1 := match d with
        | some v => { c0 with defaultVal := some (ColDefault.str v) }
        | none => c0
      if pk then { c1 with primaryKey := true } else c1
    | .number _ _ d pk =>
      let c0 : Column := { name := fieldName, kind := ColKind.integerCol }
      let c1 := match d with
        | some v => { c0 with defaultVal := some (ColDefault.int v) }
        | none => c0
      if pk then { c1 with primaryKey := true, autoIncrement := true } else c1
    | .boolean _ _ d =>
      let c0 : Column := { name := fieldName, kind := ColKind.integerBooleanCol }
      match d with
      | some v => { c0 with defaultVal := some (ColDefault.bool v) }
      | none => c0
    | .json _ _ d =>
      let c0 : Column := { name := fieldName, kind := ColKind.jsonCustomCol }
      match d with
      | some v => { c0 with defaultVal := some (ColDefault.jsonVal v) }
      | none => c0
    | .date _ _ d =>
      if isJsonSerializable then
        let c0 : Column := { name := fieldName, kind := ColKind.textCol }
        match d with
        | some v =>
          let dv := if v = "now" then ColDefault.sqlCurrentTimestamp else ColDefault.str v
          { c0 with defaultVal := some dv }
        | none => c0
      else
        let c0 : Column := { name := fieldName, kind := ColKind.dateCustomCol }
        match d with
        | some v =>
          let dv := if v = "now" then ColDefault.sqlCurrentTimestamp else ColDefault.dateParsed v
          { c0 with defaultVal := some dv }
        | none => c0
  let c2 := if !field.optional then { c with notNull := true } else c
  if field.unique then { c2 with unique := true } else c2

/-- One index of the built table. `onColumns` models the array
`onColNames.map(colName => ormTable[colName])`: `none` stands for the
`undefined` obtained when the name resolves to no column. -/
structure TableIndex where
  onColumns : List (Option String)
deriving DecidableEq, Repr

/-- The drizzle table built by `sqliteTable(name, columns, indexCallback)`. -/
structure Table where
  name : String
  columns : List (String × Column)
  indexes : List (String × TableIndex)
deriving DecidableEq, Repr

/-- The index-building callback of `collectionToTable`: for each declared
index, resolve the declared names against the table's columns and skip the
index only when the resulting array is empty (`atLeastOne` checks the length
of the array of lookups, not how many lookups succeeded). -/
def buildIndexes (cols : List (String × Column)) : List (String × DBIndex) → List (String × TableIndex)
  | [] => []
  | (indexName, props) :: rest =>
    let onColNames := normalizeOn props.onColumns
    let onCols := onColNames.map (fun cn =>
      if (cols.find? (fun q => q.1 == cn)).isSome then some cn else none)
    if onCols.length > 0 then (indexName, ⟨onCols⟩) :: buildIndexes cols rest
    else buildIndexes cols rest

/-- `collectionToTable(name, collection, isJsonSerializable = true)`.
The synthesized `_id` column is `integer('_id').primaryKey()` and is added
only when no field declares a primary key. The source's default for
`isJsonSerializable` is `true`; callers here always pass it explicitly. -/
def collectionToTable (name : String) (collection : DBCollection) (isJsonSerializable : Bool) : Table :=
  let baseCols : List (String × Column) :=
    if collection.fields.any (fun p => hasPrimaryKey p.2) then []
    else [("_id", { name := "_id", kind := ColKind.integerCol, primaryKey := true })]
  let cols := baseCols ++ collection.fields.map (fun p => (p.1, columnMapper p.1 p.2 isJsonSerializable))
  { name := name, columns := cols, indexes := buildIndexes cols collection.indexes }

/-! ## Schema installer / seeder (`setupDbTables`) -/

/-- One statement pushed onto `setupQueries`, tagged by which generator
produced it and for which collection. -/
inductive SetupStmt
  | drop (table : String)
  | create (table : String) (sqlText : String)
  | indexStmt (table : String) (sqlText : String)
deriving DecidableEq, Repr

/-- The SQL text of a setup statement. The drop statement is built as
`DROP TABLE IF EXISTS ${name}` with the raw, unescaped collection name. -/
def stmtSql : SetupStmt → String
  | .drop table => "DROP TABLE IF EXISTS " ++ table
  | .create _ sqlText => sqlText
  | .indexStmt _ sqlText => sqlText

/-- The statements pushed for one collection in the first loop of
`setupDbTables`: drop, create, then that collection's index statements. -/
def collectionQueries (name : String) (c : DBCollection) : Except AbortMsg (List SetupStmt) :=
  match getCreateTableQuery name c with
  | .ok createText =>
    .ok (SetupStmt.drop name :: SetupStmt.create name createText
          :: (getTableIndexQueries name c).map (SetupStmt.indexStmt name))
  | .error e => .error e

/-- The full `setupQueries` list, in the order the second loop of
`setupDbTables` executes it: the statements of each collection in turn. -/
def setupQueries : List (String × DBCollection) → Except AbortMsg (List SetupStmt)
  | [] => .ok []
  | (name, c) :: rest =>
    match collectionQueries name c with
    | .error e => .error e
    | .ok seg =>
      match setupQueries rest with
      | .error e => .error e
      | .ok restQs => .ok (seg ++ restQs)

/-- The error message logged when the user seed procedure throws. -/
def seedErrorLog (e : String) : String :=
  "Failed to seed data. Did you update to match recent schema changes? Full error:\n\n" ++ e

/-- Observable outcome of a successful `setupDbTables` run: the statements
executed against the client in order, the tables handed to each collection's
`_setMeta` slot in order, and the messages logged. -/
structure SetupOutcome where
  executed : List SetupStmt
  attached : List (String × Table)
  logged : List String
deriving DecidableEq, Repr

/-- `setupDbTables`: build every collection's drop/create/index statements
(aborting there if a json default cannot be serialized), execute them all in
order, and, when a seed procedure is supplied, build one table per collection
with `collectionToTable(name, collection)` — the source omits the third
argument, so `isJsonSerializable` is its default `true` — attach it, and
invoke the procedure, catching and logging any error it throws. The seed
procedure is modelled by its outcome: `Except.error e` when it throws `e`.
The external client's `run` is modelled as accepting every statement. -/
def setupDbTables (collections : List (String × DBCollection))
    (data : Option (Except String Unit)) : Except AbortMsg SetupOutcome :=
  match setupQueries collections with
  | .error e => .error e
  | .ok qs =>
    match data with
    | none => .ok { executed := qs, attached := [], logged := [] }
    | some proc =>
      let attached := collections.map (fun p => (p.1, collectionToTable p.1 p.2 true))
      match proc with
      | .ok _ => .ok { executed := qs, attached := attached, logged := [] }
      | .error e => .ok { executed := qs, attached := attached, logged := [seedErrorLog e] }

/-! ## Write guard (`createLocalDatabaseClient`) -/

/-- The two ways a guarded mutation can fail before reaching the underlying
client: the read-only rejection thrown by `checkIfModificationIsAllowed`, or
the TypeError raised by reading `.writable` off `undefined` when the table
name is not a key of the collections map. -/
inductive GuardError
  | readOnly (table : String)
  | undefinedDeref (table : String)
deriving DecidableEq, Repr

/-- The underlying drizzle client: one opaque result per operation and table
name. -/
structure RawDb (ρ : Type) where
  insert : String → ρ
  update : String → ρ
  delete : String → ρ
  select : String → ρ

/-- The client handle returned by `createLocalDatabaseClient`: the three
mutation entry points can fail in the guard, reads cannot. -/
structure GuardedDb (ρ : Type) where
  insert : String → Except GuardError ρ
  update : String → Except GuardError ρ
  delete : String → Except GuardError ρ
  select : String → ρ

/-- `collections[tableName]` on the ordered map. -/
def lookupCollection (collections : List (String × DBCollection)) (t : String) : Option DBCollection :=
  (collections.find? (fun p => p.1 == t)).map (fun p => p.2)

/-- `checkIfModificationIsAllowed`: look the collection up by table name and
throw when it is not writable. A missing entry makes `collection.writable`
dereference `undefined`, modelled by `GuardError.undefinedDeref`. -/
def checkIfModificationIsAllowed (collections : List (String × DBCollection))
    (tableName : String) : Except GuardError Unit :=
  match lookupCollection collections tableName with
  | none => .error (GuardError.undefinedDeref tableName)
  | some collection =>
    if !collection.writable then .error (GuardError.readOnly tableName) else .ok ()

/-- The unguarded client: every operation delegates directly. -/
def liftRaw {ρ : Type} (raw : RawDb ρ) : GuardedDb ρ :=
  { insert := fun t => .ok (raw.insert t),
    update := fun t => .ok (raw.update t),
    delete := fun t => .ok (raw.delete t),
    select := raw.select }

/-- `createLocalDatabaseClient`: with `seeding` the raw client is returned
untouched; otherwise insert/update/delete first run
`checkIfModificationIsAllowed` and only then delegate. `select` (and every
other read path) is left as-is. -/
def createLocalDatabaseClient {ρ : Type} (collections : List (String × DBCollection))
    (raw : RawDb ρ) (seeding : Bool) : GuardedDb ρ :=
  if seeding then liftRaw raw
  else
    { insert := fun t =>
        match checkIfModificationIsAllowed collections t with
        | .error e => .error e
        | .ok _ => .ok (raw.insert t),
      update := fun t =>
        match checkIfModificationIsAllowed collections t with
        | .error e => .error e
        | .ok _ => .ok (raw.update t),
      delete := fun t =>
        match checkIfModificationIsAllowed collections t with
        | .error e => .error e
        | .ok _ => .ok (raw.delete t),
      select := raw.select }

/-! ## Helper lemmas -/

theorem mapMExcept_error_of_mem {α β ε : Type} (f : α → Except ε β) (l : List α) (a : α)
    (ha : a ∈ l) (e : ε) (hf : f a = .error e) : ∃ e2, mapMExcept f l = .error e2 := by
  induction l with
  | nil => cases ha
  | cons hd tl ih =>
    cases hfh : f hd with
    | error e2 => exact ⟨e2, by simp [mapMExcept, hfh]⟩
    | ok b =>
      rcases List.mem_cons.mp ha with rfl | hmem
      · rw [hf] at hfh; cases hfh
      · obtain ⟨e2, h2⟩ := ih hmem
        exact ⟨e2, by simp [mapMExcept, hfh, h2]⟩

theorem setupQueries_error_of_mem (collections : List (String × DBCollection))
    (name : String) (coll : DBCollection) (hm : (name, coll) ∈ collections)
    (e : AbortMsg) (hc : collectionQueries name coll = .error e) :
    ∃ e2, setupQueries collections = .error e2 := by
  induction collections with
  | nil => cases hm
  | cons hd tl ih =>
    obtain ⟨n2, c2⟩ := hd
    cases hch : collectionQueries n2 c2 with
    | error e3 => exact ⟨e3, by simp [setupQueries, hch]⟩
    | ok seg =>
      rcases List.mem_cons.mp hm with heq | hmem
      · rw [(Prod.mk.injEq _ _ _ _).mp heq.symm |>.1, (Prod.mk.injEq _ _ _ _).mp heq.symm |>.2] at hch
        rw [hc] at hch; cases hch
      · obtain ⟨e2, h2⟩ := ih hmem
        exact ⟨e2, by simp [setupQueries, hch, h2]⟩

theorem ne_append_default (base d : String) : base ≠ base ++ " DEFAULT " ++ d := by
  intro h
  have hlen := congrArg String.length h
  rw [String.length_append, String.length_append] at hlen
  have h9 : (" DEFAULT ").length = 9 := rfl
  rw [h9] at hlen
  omega

theorem buildIndexes_eq_filterMap (cols : List (String × Column)) (l : List (String × DBIndex)) :
    buildIndexes cols l = l.filterMap (fun p =>
      let onCols := (normalizeOn p.2.onColumns).map (fun cn =>
        if (cols.find? (fun q => q.1 == cn)).isSome then some cn else none)
      if onCols.length > 0 then some (p.1, TableIndex.mk onCols) else none) := by
  induction l with
  | nil => rfl
  | cons hd tl ih =>
    obtain ⟨iname, props⟩ := hd
    by_cases hlen : 0 < (normalizeOn props.onColumns).length
    · simp [buildIndexes, List.filterMap_cons, hlen, ih]
    · simp [buildIndexes, List.filterMap_cons, hlen, ih]

/-! ## Concrete inputs used by the claim theorems -/

def postsC2 : DBCollection :=
  { fields := [("title", DBField.text false false none false),
               ("views", DBField.number true false (some 0) false)],
    indexes := [], writable := true }

def c2actual : String :=
  "CREATE TABLE \"posts\" (_id INTEGER PRIMARY KEY, \"title\" text NOT NULL, \"views\" integer DEFAULT AUTOINCREMENT)"

def c10coll : DBCollection :=
  { fields := [("title", DBField.text false false none false)],
    indexes := [("titleIdx", { onColumns := IndexOn.one "title", unique := true })],
    writable := true }

def c10sql : String :=
  "CREATE TABLE \"posts\" (_id INTEGER PRIMARY KEY, \"title\" text NOT NULL)"

def c5coll : DBCollection :=
  { fields := [("a", DBField.text false false none false)],
    indexes := [("badIdx", { onColumns := IndexOn.many ["missing"], unique := false })],
    writable := true }

def evColl : DBCollection :=
  { fields := [("happened", DBField.date false false none)],
    indexes := [], writable := true }

def collA4 : DBCollection :=
  { fields := [("x", DBField.number false false none false)],
    indexes := [("ix", { onColumns := IndexOn.one "x", unique := false })],
    writable := true }

def collB4 : DBCollection :=
  { fields := [("y", DBField.number false false none false)],
    indexes := [], writable := true }

def colls4 : List (String × DBCollection) := [("a", collA4), ("b", collB4)]

def c4CreateA : String := "CREATE TABLE \"a\" (_id INTEGER PRIMARY KEY, \"x\" integer NOT NULL)"

def c4IndexA : String := "CREATE INDEX \"ix\" ON \"a\" (\"x\")"

def c4CreateB : String := "CREATE TABLE \"b\" (_id INTEGER PRIMARY KEY, \"y\" integer NOT NULL)"

def qs4 : List SetupStmt :=
  [SetupStmt.drop "a", SetupStmt.create "a" c4CreateA, SetupStmt.indexStmt "a" c4IndexA,
   SetupStmt.drop "b", SetupStmt.create "b" c4CreateB]

/-! ## Claim C2 -/

/-- C2 counterexample: for the collection of the claim (`title` Text not
optional, `views` Number with default 0), `getCreateTableQuery` does not
return the text the claim states: the synthesized `_id` is unescaped, the
storage types are lowercase `text`/`integer`, and the JavaScript falsy test
`column.default || 'AUTOINCREMENT'` turns the explicit default `0` into
`DEFAULT AUTOINCREMENT`. -/
theorem posts_ddl_differs_from_claimed :
    getCreateTableQuery "posts" postsC2 = .ok c2actual
  ∧ c2actual ≠ "CREATE TABLE \"posts\" (\"_id\" INTEGER PRIMARY KEY, \"title\" TEXT NOT NULL, \"views\" INTEGER DEFAULT 0)" :=
  ⟨rfl, by decide⟩

/-- C2 (amended): for the collection `posts` with fields
`title: Text(optional:false)` and `views: Number(default:0)`,
`getCreateTableQuery` returns exactly
`CREATE TABLE "posts" (_id INTEGER PRIMARY KEY, "title" text NOT NULL, "views" integer DEFAULT AUTOINCREMENT)`. -/
theorem posts_ddl_exact_text : getCreateTableQuery "posts" postsC2 = .ok c2actual := rfl

/-! ## Claim C10 -/

/-- C10 counterexample: the CREATE TABLE statement does not escape every
column name — the synthesized `_id INTEGER PRIMARY KEY` clause is emitted
with the raw, unquoted name `_id`. -/
theorem synthesized_id_column_unescaped :
    getCreateTableQuery "posts" c10coll = .ok c10sql
  ∧ strContains c10sql "_id INTEGER PRIMARY KEY" = true
  ∧ strContains c10sql (escapeName "_id") = false :=
  ⟨rfl, rfl, rfl⟩

/-! ## Claim C5 -/

/-- C5 counterexample: an index whose column list names a field absent from
the collection still yields one CREATE INDEX statement (referencing the
missing column verbatim), and the table-descriptor builder still includes
the index, with the unresolved lookup recorded as `none` (undefined). -/
theorem missing_index_column_not_skipped :
    getTableIndexQueries "t" c5coll = ["CREATE INDEX \"badIdx\" ON \"t\" (\"missing\")"]
  ∧ (collectionToTable "t" c5coll true).indexes = [("badIdx", ⟨[none]⟩)] :=
  ⟨rfl, rfl⟩

/-- C5 (amended): the DDL generator emits exactly one CREATE INDEX statement
per declared index, with no validation of the referenced columns, and the
table-descriptor builder omits an index only when its declared column list
is empty: every other index is kept, with unresolvable names recorded as
unresolved (`none`) entries. No error is raised in either path. -/
theorem index_emission_and_skip_rule (n : String) (coll : DBCollection) (m : Bool) :
    (getTableIndexQueries n coll).length = coll.indexes.length
  ∧ (collectionToTable n coll m).indexes
      = coll.indexes.filterMap (fun p =>
          let onCols := (normalizeOn p.2.onColumns).map (fun cn =>
            if (((collectionToTable n coll m).columns).find? (fun q => q.1 == cn)).isSome
            then some cn else none)
          if onCols.length > 0 then some (p.1, TableIndex.mk onCols) else none) := by
  constructor
  · simp [getTableIndexQueries]
  · exact buildIndexes_eq_filterMap _ _

/-! ## Claim C3 -/

/-- C3 counterexample: in a seeded setup run the descriptor attached for a
collection with a date field is the JSON-transport-mode table (the source
calls `collectionToTable(name, collection)` and the omitted third argument
defaults to `true`), and that table differs from the native-mode one. -/
theorem attached_descriptor_differs_from_native :
    (setupDbTables [("ev", evColl)] (some (Except.ok ()))).toOption.map SetupOutcome.attached
      = some [("ev", collectionToTable "ev" evColl true)]
  ∧ collectionToTable "ev" evColl true ≠ collectionToTable "ev" evColl false :=
  ⟨rfl, by decide⟩

/-- C3 (amended): whenever a seed procedure is supplied and `setupDbTables`
completes, the descriptor attached to every collection's metadata slot is the
JSON-transport-mode table `collectionToTable name collection true`, not the
native-mode one. -/
theorem attached_descriptors_are_json_mode (collections : List (String × DBCollection))
    (proc : Except String Unit) (r : SetupOutcome)
    (h : setupDbTables collections (some proc) = .ok r) :
    r.attached = collections.map (fun p => (p.1, collectionToTable p.1 p.2 true)) := by
  unfold setupDbTables at h
  cases hq : setupQueries collections with
  | error e => rw [hq] at h; cases h
  | ok qs =>
    rw [hq] at h
    cases proc with
    | ok u =>
      injection h with h2
      rw [← h2]
    | error e =>
      injection h with h2
      rw [← h2]

def evOut : SetupOutcome :=
  { executed := [SetupStmt.drop "ev",
      SetupStmt.create "ev" "CREATE TABLE \"ev\" (_id INTEGER PRIMARY KEY, \"happened\" text NOT NULL)"],
    attached := [("ev", collectionToTable "ev" evColl true)],
    logged := [] }

/-- C3 witness: the amended theorem applied to the one-collection run. -/
theorem attached_descriptors_are_json_mode_witness :
    setupDbTables [("ev", evColl)] (some (Except.ok ())) = .ok evOut
  ∧ evOut.attached = [("ev", evColl)].map (fun p => (p.1, collectionToTable p.1 p.2 true)) :=
  ⟨rfl, attached_descriptors_are_json_mode [("ev", evColl)] (Except.ok ()) evOut rfl⟩

/-! ## Claim C4 -/

/-- C4 counterexample: with two collections where the first declares an
index, the executed statement sequence contains the first collection's
CREATE INDEX (position 2) before the second collection's CREATE TABLE
(position 4), so not every index statement runs after all tables exist. -/
theorem index_statement_precedes_later_create :
    (setupDbTables colls4 none).toOption.map SetupOutcome.executed = some qs4
  ∧ qs4[2]? = some (SetupStmt.indexStmt "a" c4IndexA)
  ∧ qs4[4]? = some (SetupStmt.create "b" c4CreateB) :=
  ⟨rfl, rfl, rfl⟩

/-- C4 (amended): statements execute per collection, in order drop, create,
then that collection's index statements; hence every CREATE INDEX statement
in the executed sequence is preceded by the CREATE TABLE statement of its own
collection (but possibly not by tables of collections listed later). -/
theorem index_after_own_create (collections : List (String × DBCollection)) (t s : String) :
    ∀ (qs pre post : List SetupStmt), setupQueries collections = .ok qs →
      qs = pre ++ SetupStmt.indexStmt t s :: post →
      ∃ ct, SetupStmt.create t ct ∈ pre := by
  induction collections with
  | nil =>
    intro qs pre post h hsplit
    simp only [setupQueries] at h
    injection h with h
    rw [← h] at hsplit
    simp at hsplit
  | cons hd tl ih =>
    intro qs pre post h hsplit
    obtain ⟨name, c⟩ := hd
    simp only [setupQueries] at h
    cases hc : collectionQueries name c with
    | error e => rw [hc] at h; cases h
    | ok seg =>
      rw [hc] at h
      cases hrest : setupQueries tl with
      | error e => rw [hrest] at h; cases h
      | ok restQs =>
        rw [hrest] at h
        injection h with h
        rw [hsplit] at h
        rcases List.append_eq_append_iff.mp h with ⟨a2, hpre, hrest2⟩ | ⟨c2, hseg2, hpost2⟩
        · obtain ⟨ct2, hmem⟩ := ih restQs a2 post hrest hrest2
          exact ⟨ct2, by rw [hpre]; exact List.mem_append.mpr (Or.inr hmem)⟩
        · unfold collectionQueries at hc
          cases hct : getCreateTableQuery name c with
          | error e => rw [hct] at hc; cases hc
          | ok ct =>
            rw [hct] at hc
            injection hc with hseg
            cases c2 with
            | nil =>
              obtain ⟨ct2, hmem⟩ := ih restQs [] post hrest (by simpa using hpost2.symm)
              exact absurd hmem (List.not_mem_nil _)
            | cons x c2tl =>
              injection hpost2 with hx hpost3
              rw [← hx] at hseg2
              rw [← hseg] at hseg2
              cases pre with
              | nil => simp at hseg2
              | cons p1 pre1 =>
                cases pre1 with
                | nil =>
                  injection hseg2 with h1 h23
                  injection h23 with h2 h3
                  cases h2
                | cons p2 pre2 =>
                  injection hseg2 with h1 h23
                  injection h23 with h2 h3
                  have hmemidx : SetupStmt.indexStmt t s
                      ∈ (getTableIndexQueries name c).map (SetupStmt.indexStmt name) := by
                    rw [h3]
                    exact List.mem_append.mpr (Or.inr (List.mem_cons_self _ _))
                  obtain ⟨q, hq, heq⟩ := List.mem_map.mp hmemidx
                  injection heq with hn hs2
                  refine ⟨ct, ?_⟩
                  rw [← hn, h2]
                  exact List.mem_cons.mpr (Or.inr (List.mem_cons_self _ _))

/-- C4 witness: the per-collection ordering theorem applied to the concrete
two-collection run. -/
theorem index_after_own_create_witness :
    setupQueries colls4 = .ok qs4
  ∧ qs4 = [SetupStmt.drop "a", SetupStmt.create "a" c4CreateA]
        ++ SetupStmt.indexStmt "a" c4IndexA
          :: [SetupStmt.drop "b", SetupStmt.create "b" c4CreateB]
  ∧ ∃ ct, SetupStmt.create "a" ct ∈ [SetupStmt.drop "a", SetupStmt.create "a" c4CreateA] :=
  ⟨rfl, rfl, index_after_own_create colls4 "a" c4IndexA qs4 _ _ rfl rfl⟩

/-! ## Claim C6 -/

/-- C6: through the guarded handle, a mutation on a table whose collection is
present and not writable fails with the read-only error, and the result does
not depend on the underlying client (it is never contacted); on a writable
collection every mutation delegates and returns the underlying result
unchanged; `select` is never intercepted; and with `seeding = true` the raw
client is returned with no guard installed. -/
theorem write_guard_policy {ρ : Type} (collections : List (String × DBCollection))
    (raw raw2 : RawDb ρ) (t : String) (c : DBCollection)
    (hl : lookupCollection collections t = some c) :
    (c.writable = false →
      (createLocalDatabaseClient collections raw false).insert t = .error (GuardError.readOnly t)
      ∧ (createLocalDatabaseClient collections raw false).update t = .error (GuardError.readOnly t)
      ∧ (createLocalDatabaseClient collections raw false).delete t = .error (GuardError.readOnly t)
      ∧ (createLocalDatabaseClient collections raw false).insert t
          = (createLocalDatabaseClient collections raw2 false).insert t
      ∧ (createLocalDatabaseClient collections raw false).update t
          = (createLocalDatabaseClient collections raw2 false).update t
      ∧ (createLocalDatabaseClient collections raw false).delete t
          = (createLocalDatabaseClient collections raw2 false).delete t)
  ∧ (c.writable = true →
      (createLocalDatabaseClient collections raw false).insert t = .ok (raw.insert t)
      ∧ (createLocalDatabaseClient collections raw false).update t = .ok (raw.update t)
      ∧ (createLocalDatabaseClient collections raw false).delete t = .ok (raw.delete t))
  ∧ (createLocalDatabaseClient collections raw false).select = raw.select
  ∧ createLocalDatabaseClient collections raw true = liftRaw raw := by
  refine ⟨fun hw => ?_, fun hw => ?_, rfl, rfl⟩
  · simp [createLocalDatabaseClient, checkIfModificationIsAllowed, hl, hw]
  · simp [createLocalDatabaseClient, checkIfModificationIsAllowed, hl, hw]

def collRO : DBCollection := { fields := [], indexes := [], writable := false }

def collRW : DBCollection := { fields := [], indexes := [], writable := true }

def colls6 : List (String × DBCollection) := [("ro", collRO), ("rw", collRW)]

def raw6 : RawDb Nat :=
  { insert := fun _ => 10, update := fun _ => 20, delete := fun _ => 30, select := fun _ => 40 }

def raw6b : RawDb Nat :=
  { insert := fun _ => 11, update := fun _ => 21, delete := fun _ => 31, select := fun _ => 41 }

/-- C6 witness: the guard theorem applied to a concrete read-only collection. -/
theorem write_guard_policy_witness :
    lookupCollection colls6 "ro" = some collRO
  ∧ collRO.writable = false
  ∧ (createLocalDatabaseClient colls6 raw6 false).insert "ro"
      = .error (GuardError.readOnly "ro") :=
  ⟨rfl, rfl, ((write_guard_policy colls6 raw6 raw6b "ro" collRO rfl).1 rfl).1⟩

/-! ## Claim C9 -/

/-- C9: a mutation through the guarded handle on a table name absent from the
collections map fails inside the guard with the undefined-dereference error
(reading `.writable` off `undefined`), not the read-only error, and never
reaches the underlying client (the outcome is independent of it). -/
theorem guard_missing_collection_deref {ρ : Type} (collections : List (String × DBCollection))
    (raw raw2 : RawDb ρ) (t : String)
    (hl : lookupCollection collections t = none) :
    (createLocalDatabaseClient collections raw false).insert t
        = .error (GuardError.undefinedDeref t)
  ∧ (createLocalDatabaseClient collections raw false).update t
        = .error (GuardError.undefinedDeref t)
  ∧ (createLocalDatabaseClient collections raw false).delete t
        = .error (GuardError.undefinedDeref t)
  ∧ (createLocalDatabaseClient collections raw false).insert t
        = (createLocalDatabaseClient collections raw2 false).insert t
  ∧ (createLocalDatabaseClient collections raw false).update t
        = (createLocalDatabaseClient collections raw2 false).update t
  ∧ (createLocalDatabaseClient collections raw false).delete t
        = (createLocalDatabaseClient collections raw2 false).delete t := by
  simp [createLocalDatabaseClient, checkIfModificationIsAllowed, hl]

/-- C9 witness: the missing-collection theorem applied to a table name not in
the concrete map. -/
theorem guard_missing_collection_deref_witness :
    lookupCollection colls6 "nope" = none
  ∧ (createLocalDatabaseClient colls6 raw6 false).insert "nope"
      = .error (GuardError.undefinedDeref "nope") :=
  ⟨rfl, (guard_missing_collection_deref colls6 raw6 raw6b "nope" rfl).1⟩

/-! ## Claim C7 -/

/-- C7: when the seed procedure throws, `setupDbTables` catches the error,
logs the seed-failure message, and still returns normally, with every
drop/create/index statement of the run having been executed. -/
theorem seed_failure_swallowed (collections : List (String × DBCollection))
    (e : String) (qs : List SetupStmt) (hq : setupQueries collections = .ok qs) :
    ∃ r, setupDbTables collections (some (Except.error e)) = .ok r
      ∧ r.executed = qs ∧ r.logged = [seedErrorLog e] := by
  refine ⟨{ executed := qs,
            attached := collections.map (fun p => (p.1, collectionToTable p.1 p.2 true)),
            logged := [seedErrorLog e] }, ?_, rfl, rfl⟩
  simp [setupDbTables, hq]

def collP7 : DBCollection :=
  { fields := [("n", DBField.number false false none false)], indexes := [], writable := true }

def colls7 : List (String × DBCollection) := [("p", collP7)]

def qs7 : List SetupStmt :=
  [SetupStmt.drop "p",
   SetupStmt.create "p" "CREATE TABLE \"p\" (_id INTEGER PRIMARY KEY, \"n\" integer NOT NULL)"]

/-- C7 witness: the swallowing theorem applied to a concrete run whose seed
procedure throws "boom". -/
theorem seed_failure_swallowed_witness :
    setupQueries colls7 = .ok qs7
  ∧ ∃ r, setupDbTables colls7 (some (Except.error "boom")) = .ok r
      ∧ r.executed = qs7 ∧ r.logged = [seedErrorLog "boom"] :=
  ⟨rfl, seed_failure_swallowed colls7 "boom" qs7 rfl⟩

/-! ## Claim C8 -/

theorem getCreateTableQuery_error_of_bad_json (n : String) (coll : DBCollection)
    (fn : String) (opt uniq : Bool)
    (hf : (fn, DBField.json opt uniq (some JsonVal.unserializable)) ∈ coll.fields) :
    ∃ e, getCreateTableQuery n coll = .error e := by
  have hcc : columnClause fn (DBField.json opt uniq (some JsonVal.unserializable))
      = .error (AbortMsg.invalidJsonDefault fn) := by
    simp [columnClause, getModifiers, hasPrimaryKey, hasDefault, DBField.defaultDefined,
      getDefaultValueSql]
  obtain ⟨e2, h2⟩ := mapMExcept_error_of_mem (fun p => columnClause p.1 p.2) coll.fields
      (fn, DBField.json opt uniq (some JsonVal.unserializable)) hf _ hcc
  exact ⟨e2, by simp [getCreateTableQuery, h2]⟩

/-- C8: if any collection has a json field whose default value is not
JSON-serializable, `setupDbTables` terminates abortively during DDL-text
generation (the source logs the invalid-default message and exits the
process), and no statement of the run is ever executed: the run produces no
`SetupOutcome` at all. -/
theorem bad_json_default_aborts_before_ddl (collections : List (String × DBCollection))
    (data : Option (Except String Unit)) (name : String) (coll : DBCollection)
    (fn : String) (opt uniq : Bool)
    (hc : (name, coll) ∈ collections)
    (hf : (fn, DBField.json opt uniq (some JsonVal.unserializable)) ∈ coll.fields) :
    ∃ m, setupDbTables collections data = .error m := by
  obtain ⟨e, he⟩ := getCreateTableQuery_error_of_bad_json name coll fn opt uniq hf
  have hcq : collectionQueries name coll = .error e := by simp [collectionQueries, he]
  obtain ⟨e2, h2⟩ := setupQueries_error_of_mem collections name coll hc e hcq
  exact ⟨e2, by simp [setupDbTables, h2]⟩

def collBadJson : DBCollection :=
  { fields := [("ok1", DBField.text false false none false),
               ("blob", DBField.json false false (some JsonVal.unserializable))],
    indexes := [], writable := true }

def colls8 : List (String × DBCollection) := [("good", collP7), ("bad", collBadJson)]

/-- C8 witness: the abort theorem applied to a concrete run whose second
collection carries an unserializable json default. -/
theorem bad_json_default_aborts_before_ddl_witness :
    ("bad", collBadJson) ∈ colls8
  ∧ ("blob", DBField.json false false (some JsonVal.unserializable)) ∈ collBadJson.fields
  ∧ ∃ m, setupDbTables colls8 none = .error m :=
  ⟨by simp [colls8], by simp [collBadJson],
   bad_json_default_aborts_before_ddl colls8 none "bad" collBadJson "blob" false false
     (by simp [colls8]) (by simp [collBadJson])⟩

/-! ## Claim C1 -/

theorem columnMapper_defaultVal_isSome (fieldName : String) (field : DBField) (mode : Bool) :
    (columnMapper fieldName field mode).defaultVal.isSome = field.defaultDefined := by
  cases field with
  | text o u d pk => cases d <;> cases pk <;> cases o <;> cases u <;> rfl
  | number o u d pk => cases d <;> cases pk <;> cases o <;> cases u <;> rfl
  | boolean o u d => cases d <;> cases o <;> cases u <;> rfl
  | date o u d => cases mode <;> cases d <;> cases o <;> cases u <;> rfl
  | json o u d => cases d <;> cases o <;> cases u <;> rfl

theorem hasDefault_eq_defaultDefined_of_nonpk (field : DBField)
    (hpk : hasPrimaryKey field = false) : hasDefault field = field.defaultDefined := by
  unfold hasDefault
  rw [hpk]
  cases hd : field.defaultDefined <;> simp

theorem getModifiers_default_iff_hasDefault (fieldName : String) (field : DBField) (s : String)
    (hpk : hasPrimaryKey field = false)
    (hok : getModifiers fieldName field = .ok s) :
    (∃ d, s = (if !field.optional then " NOT NULL" else "")
            ++ (if field.unique then " UNIQUE" else "") ++ " DEFAULT " ++ d)
      ↔ hasDefault field = true := by
  unfold getModifiers at hok
  rw [hpk] at hok
  simp only [Bool.false_eq_true, if_false] at hok
  cases hd : hasDefault field with
  | false =>
    rw [hd] at hok
    simp only [Bool.false_eq_true, if_false] at hok
    injection hok with hok
    constructor
    · rintro ⟨d, hdd⟩
      rw [← hok] at hdd
      exact absurd hdd (ne_append_default _ d)
    · intro h; cases h
  | true =>
    rw [hd] at hok
    simp only [if_true] at hok
    cases hdv : getDefaultValueSql fieldName field with
    | error e => rw [hdv] at hok; cases hok
    | ok v =>
      rw [hdv] at hok
      injection hok with hok
      exact ⟨fun _ => rfl, fun _ => ⟨v, hok.symm⟩⟩

/-- C1 counterexample: a Number field marked primaryKey with an explicit
default. `getModifiers` returns only ` PRIMARY KEY` (the primary-key branch
suppresses every other modifier, so the clause carries no DEFAULT), while the
descriptor column built by `columnMapper` does carry the default `5`. -/
theorem pk_field_default_modifier_disagrees :
    getModifiers "id" (DBField.number false false (some 5) true) = .ok " PRIMARY KEY"
  ∧ strContains " PRIMARY KEY" " DEFAULT" = false
  ∧ (columnMapper "id" (DBField.number false false (some 5) true) true).defaultVal
      = some (ColDefault.int 5) :=
  ⟨rfl, rfl, rfl⟩

/-- C1 (amended): for every field NOT marked as primary key, in every
descriptor mode, the column clause generated by `getModifiers` carries a
DEFAULT modifier if and only if the descriptor column built by `columnMapper`
carries a default. (For primary-key fields the DDL path emits only
`PRIMARY KEY` while `columnMapper` still applies an explicitly configured
default, so the two paths disagree exactly when a primary-key field has an
explicit default.) -/
theorem default_modifier_agreement_nonpk (fieldName : String) (field : DBField)
    (mode : Bool) (s : String)
    (hpk : hasPrimaryKey field = false)
    (hok : getModifiers fieldName field = .ok s) :
    (∃ d, s = (if !field.optional then " NOT NULL" else "")
            ++ (if field.unique then " UNIQUE" else "") ++ " DEFAULT " ++ d)
      ↔ (columnMapper fieldName field mode).defaultVal.isSome = true := by
  rw [getModifiers_default_iff_hasDefault fieldName field s hpk hok,
    columnMapper_defaultVal_isSome fieldName field mode,
    hasDefault_eq_defaultDefined_of_nonpk field hpk]

/-- C1 witness: the agreement theorem applied to a non-primary-key Number
field with default 5, whose generated modifiers are exactly ` DEFAULT 5`. -/
theorem default_modifier_agreement_nonpk_witness :
    hasPrimaryKey (DBField.number true false (some 5) false) = false
  ∧ getModifiers "views" (DBField.number true false (some 5) false) = .ok " DEFAULT 5"
  ∧ ((∃ d, " DEFAULT 5"
        = (if !(DBField.number true false (some 5) false).optional then " NOT NULL" else "")
          ++ (if (DBField.number true false (some 5) false).unique then " UNIQUE" else "")
          ++ " DEFAULT " ++ d)
      ↔ (columnMapper "views" (DBField.number true false (some 5) false) true).defaultVal.isSome
          = true) :=
  ⟨rfl, rfl,
   default_modifier_agreement_nonpk "views" (DBField.number true false (some 5) false) true
     " DEFAULT 5" rfl rfl⟩

/-! ## Claim C10 (amended theorem and witness) -/

/-- C10 (amended): the drop statement is `DROP TABLE IF EXISTS` followed by
the raw collection name with no escaping, while CREATE TABLE escapes the
table name and every declared field name, and CREATE INDEX escapes the index
name, the table name, and every referenced column name. The one exception is
the synthesized `_id` column, which CREATE TABLE emits unescaped. -/
theorem escaping_rules :
    (∀ n, stmtSql (SetupStmt.drop n) = "DROP TABLE IF EXISTS " ++ n)
  ∧ (∀ n coll s, getCreateTableQuery n coll = .ok s →
      ∃ body, s = "CREATE TABLE " ++ escapeName n ++ " (" ++ body ++ ")")
  ∧ (∀ fn f m, columnClause fn f = .ok m →
      ∃ rest, m = escapeName fn ++ " " ++ schemaTypeToSqlType f.type ++ rest)
  ∧ (∀ n coll q, q ∈ getTableIndexQueries n coll → ∃ iname props,
      (iname, props) ∈ coll.indexes ∧
      q = "CREATE " ++ (if props.unique then "UNIQUE " else "") ++ "INDEX "
          ++ escapeName iname ++ " ON " ++ escapeName n ++ " ("
          ++ String.intercalate ", " ((normalizeOn props.onColumns).map escapeName) ++ ")") := by
  refine ⟨fun n => rfl, fun n coll s h => ?_, fun fn f m h => ?_, fun n coll q h => ?_⟩
  · unfold getCreateTableQuery at h
    cases hm : mapMExcept (fun p => columnClause p.1 p.2) coll.fields with
    | error e => rw [hm] at h; cases h
    | ok cols =>
      rw [hm] at h
      injection h with h
      exact ⟨_, h.symm⟩
  · unfold columnClause at h
    cases hg : getModifiers fn f with
    | error e => rw [hg] at h; cases h
    | ok mods =>
      rw [hg] at h
      injection h with h
      exact ⟨mods, h.symm⟩
  · obtain ⟨p, hp, hq⟩ := List.mem_map.mp h
    exact ⟨p.1, p.2, hp, hq.symm⟩

/-- C10 witness: the escaping theorem applied to concrete statements (a
collection name containing a space for the drop, and the `posts` collection
with a unique index for the create/index parts). -/
theorem escaping_rules_witness :
    stmtSql (SetupStmt.drop "my posts") = "DROP TABLE IF EXISTS " ++ "my posts"
  ∧ (∃ body, c10sql = "CREATE TABLE " ++ escapeName "posts" ++ " (" ++ body ++ ")")
  ∧ (∃ rest, "\"title\" text NOT NULL" = escapeName "title" ++ " "
        ++ schemaTypeToSqlType (DBField.text false false none false).type ++ rest)
  ∧ (∃ iname props, (iname, props) ∈ c10coll.indexes ∧
      "CREATE UNIQUE INDEX \"titleIdx\" ON \"posts\" (\"title\")"
        = "CREATE " ++ (if props.unique then "UNIQUE " else "") ++ "INDEX "
          ++ escapeName iname ++ " ON " ++ escapeName "posts" ++ " ("
          ++ String.intercalate ", " ((normalizeOn props.onColumns).map escapeName) ++ ")") :=
  ⟨escaping_rules.1 "my posts",
   escaping_rules.2.1 "posts" c10coll c10sql rfl,
   escaping_rules.2.2.1 "title" (DBField.text false false none false) "\"title\" text NOT NULL" rfl,
   escaping_rules.2.2.2 "posts" c10coll "CREATE UNIQUE INDEX \"titleIdx\" ON \"posts\" (\"title\")"
     (by exact List.mem_cons_self _ _)⟩

end AstroDb
